import Mathlib

/-!
Verification development for the healthion ingestion pipeline
(`app/services/xml_service.py`, `app/tasks/process_uploaded_task.py`,
`app/tasks/process_upload_task.py`, `app/tasks/tasks.py`).

The Python code is shallowly embedded: pure helpers become Lean functions,
exceptions become `Except` / an explicit trailing `Option PyExc`, the
SQLAlchemy session becomes an explicit `Store` with pending and committed
writes, and external collaborators (S3, SQS, `pg_dump`, the chunked XML
parser whose module is not part of the pipeline sources) become oracle
inputs describing their outcome.
-/

/-! ## Python scalar values

A scalar cell of a parsed chunk, or an argument to `_safe_decimal`.
A Python `float` object is represented by its `str()` form, which in
CPython determines the float uniquely (repr round-trips); the only float
observations the code makes are `str(value)` and `value == 0.0`, and a
float compares equal to `0.0` exactly when its repr is `"0.0"` or
`"-0.0"`. -/
inductive PyVal
  | none
  | str (s : String)
  | int (n : Int)
  | float (repr : String)
deriving DecidableEq, Repr

def exceptDecEq {ε α : Type} [DecidableEq ε] [DecidableEq α] :
    (x y : Except ε α) → Decidable (x = y)
  | Except.ok a, Except.ok b =>
    if h : a = b then Decidable.isTrue (by rw [h])
    else Decidable.isFalse (fun hc => h (Except.ok.inj hc))
  | Except.error a, Except.error b =>
    if h : a = b then Decidable.isTrue (by rw [h])
    else Decidable.isFalse (fun hc => h (Except.error.inj hc))
  | Except.ok _, Except.error _ => Decidable.isFalse (fun hc => Except.noConfusion hc)
  | Except.error _, Except.ok _ => Decidable.isFalse (fun hc => Except.noConfusion hc)

instance {ε α : Type} [DecidableEq ε] [DecidableEq α] : DecidableEq (Except ε α) :=
  exceptDecEq

/-- Python `str(value)` on the scalars above. -/
def pyStr : PyVal → String
  | PyVal.none => "None"
  | PyVal.str s => s
  | PyVal.int n => toString n
  | PyVal.float r => r

/-- Python `isinstance(value, float) and value == 0.0`. -/
def floatIsZero : PyVal → Bool
  | PyVal.float r => r == "0.0" || r == "-0.0"
  | _ => false

/-- The Python exceptions the embedded code can raise or catch. -/
inductive PyExc
  | invalidOperation
  | valueError
  | typeError
  | keyError
  | attributeError
  | clientError (msg : String)
  | calledProcessError (stderr : String)
deriving DecidableEq, Repr

/-- Crude rendering of `str(e)`, used where the code folds an exception
into a message string. -/
def pyExcStr : PyExc → String
  | PyExc.invalidOperation => "InvalidOperation"
  | PyExc.valueError => "ValueError"
  | PyExc.typeError => "TypeError"
  | PyExc.keyError => "KeyError"
  | PyExc.attributeError => "AttributeError"
  | PyExc.clientError m => m
  | PyExc.calledProcessError m => "pg_dump failed: " ++ m

/-! ## decimal.Decimal

A `Decimal` is modelled by its numeric value (a finite value `num m e`
denotes the rational `m * 10 ^ e`, plus the special values), which is what
Python's `==` on `Decimal` compares and what the numeric database columns
store.  Finite values are kept canonical (`mkNum`: a zero is `num 0 0`,
a nonzero mantissa carries no factor of 10), so equality of `DecVal`
coincides with numeric equality of the underlying decimals.  The string
constructor follows the decimal module: strip surrounding whitespace,
drop underscores, then an optionally signed coefficient with optional
fraction and exponent, or (case-insensitively) an infinity or a
(signalling) NaN with optional diagnostic digits.  An unparseable string
raises `decimal.InvalidOperation` — not `ValueError` or `TypeError`. -/
inductive DecVal
  | num (mantissa : Int) (exp : Int)
  | inf (neg : Bool)
  | nan
  | snan
deriving DecidableEq, Repr

/-- Divide out factors of 10 from a nonzero mantissa (first component of
the result), counting them (second component); the first argument is
recursion fuel, at least the number of decimal digits of `m`. -/
def stripTensAux : Nat → Nat → Nat × Nat
  | 0, m => (m, 0)
  | fuel + 1, m =>
    if m ≠ 0 ∧ m % 10 = 0 then
      let (m', k) := stripTensAux fuel (m / 10)
      (m', k + 1)
    else (m, 0)

/-- Canonical finite decimal denoting `m * 10 ^ e`. -/
def mkNum (m e : Int) : DecVal :=
  if m = 0 then DecVal.num 0 0
  else
    let n := m.natAbs
    let (n', k) := stripTensAux n n
    DecVal.num (if m < 0 then -(n' : Int) else (n' : Int)) (e + (k : Int))

/-- Value of a list of decimal digit characters. -/
def digitsToNat (l : List Char) : Nat :=
  l.foldl (fun n c => 10 * n + (c.toNat - 48)) 0

/-- Split a character list at the first exponent marker (input is already
lowercased). -/
def spanNoExp : List Char → List Char × Option (List Char)
  | [] => ([], Option.none)
  | c :: cs =>
    if c = 'e' then ([], some cs)
    else
      let (a, b) := spanNoExp cs
      (c :: a, b)

/-- Parse `digits [ '.' digits ]` into the digit value and the number of
fractional digits; at least one digit overall is required. -/
def parseMantissa (cs : List Char) : Option (Nat × Nat) :=
  let ip := cs.takeWhile (·.isDigit)
  let rest := cs.dropWhile (·.isDigit)
  match rest with
  | [] => if ip.isEmpty then Option.none else some (digitsToNat ip, 0)
  | '.' :: fp =>
    if fp.all (·.isDigit) then
      if ip.isEmpty && fp.isEmpty then Option.none
      else some (digitsToNat (ip ++ fp), fp.length)
    else Option.none
  | _ => Option.none

/-- Parse an optionally signed exponent with at least one digit. -/
def parseExpPart (cs : List Char) : Option Int :=
  let (neg, ds) :=
    match cs with
    | '+' :: r => (false, r)
    | '-' :: r => (true, r)
    | r => (false, r)
  if ds.isEmpty || !(ds.all (·.isDigit)) then Option.none
  else some (if neg then -(digitsToNat ds : Int) else (digitsToNat ds : Int))

/-- Python `str.strip()` on the character list of a string. -/
def pyStrip (s : String) : List Char :=
  ((s.toList.dropWhile Char.isWhitespace).reverse.dropWhile Char.isWhitespace).reverse

/-- Parse a decimal numeric string; `Option.none` means the constructor
rejects it. -/
def decParse? (s : String) : Option DecVal :=
  let cs := ((pyStrip s).filter (fun c => c ≠ '_')).map Char.toLower
  let (neg, body) :=
    match cs with
    | '+' :: rest => (false, rest)
    | '-' :: rest => (true, rest)
    | rest => (false, rest)
  if body = ['i', 'n', 'f'] ∨ body = ['i', 'n', 'f', 'i', 'n', 'i', 't', 'y'] then
    some (DecVal.inf neg)
  else
    match body with
    | 's' :: 'n' :: 'a' :: 'n' :: ds =>
      if ds.all (·.isDigit) then some DecVal.snan else Option.none
    | 'n' :: 'a' :: 'n' :: ds =>
      if ds.all (·.isDigit) then some DecVal.nan else Option.none
    | _ =>
      let (mant, expPart) := spanNoExp body
      match parseMantissa mant with
      | Option.none => Option.none
      | some (m, fracLen) =>
        let signed : Int := if neg then -(m : Int) else (m : Int)
        match expPart with
        | Option.none => some (mkNum signed (-(fracLen : Int)))
        | some ecs =>
          match parseExpPart ecs with
          | Option.none => Option.none
          | some e => some (mkNum signed (e - (fracLen : Int)))

/-- The `Decimal(string)` constructor: a value, or a raised
`decimal.InvalidOperation` on conversion syntax errors. -/
def Decimal_ofString (s : String) : Except PyExc DecVal :=
  match decParse? s with
  | some d => Except.ok d
  | Option.none => Except.error PyExc.invalidOperation

/-- The exception classes named by `except (ValueError, TypeError)` in
both `_safe_decimal` implementations. -/
def caughtBySafeDecimal : PyExc → Bool
  | PyExc.valueError => true
  | PyExc.typeError => true
  | _ => false

namespace XMLImportService

/-- `XMLImportService._safe_decimal` (app/services/xml_service.py:142-152):
`None -> None`; a float equal to `0.0` -> `Decimal("0")`; otherwise
`Decimal(str(value))`, returning `None` only when that raises
`ValueError` or `TypeError` and propagating any other exception. -/
def _safe_decimal (value : PyVal) : Except PyExc (Option DecVal) :=
  match value with
  | PyVal.none => Except.ok Option.none
  | v =>
    if floatIsZero v then Except.ok (some (DecVal.num 0 0))
    else
      match Decimal_ofString (pyStr v) with
      | Except.ok d => Except.ok (some d)
      | Except.error e =>
        if caughtBySafeDecimal e then Except.ok Option.none else Except.error e

end XMLImportService

namespace process_upload_task

/-- Module-level `_safe_decimal` (app/tasks/process_upload_task.py:186-194):
as the service version but without the float-zero special case. -/
def _safe_decimal (value : PyVal) : Except PyExc (Option DecVal) :=
  match value with
  | PyVal.none => Except.ok Option.none
  | v =>
    match Decimal_ofString (pyStr v) with
    | Except.ok d => Except.ok (some d)
    | Except.error e =>
      if caughtBySafeDecimal e then Except.ok Option.none else Except.error e

end process_upload_task

/-! ## Tabular chunks

`XMLExporter.parse_xml` (app/utils/xml_exporter.py, not among the pipeline
sources) yields pandas DataFrames.  A chunk is its column list plus its
rows, each row a mapping from column name to scalar cell; `df.empty` holds
when either axis has length zero.  `row.get(col, default)` is a lookup
with default, and Python string slicing `s[:n]` takes the first `n`
characters. -/
abbrev Row := List (String × PyVal)

structure Chunk where
  cols : List String
  rows : List Row
deriving DecidableEq, Repr

/-- pandas `df.empty`. -/
def dfEmpty (df : Chunk) : Bool :=
  df.rows.isEmpty || df.cols.isEmpty

/-- pandas `row.get(col, default)`. -/
def rowGet (row : Row) (col : String) (dflt : PyVal) : PyVal :=
  match row.lookup col with
  | some v => v
  | Option.none => dflt

/-- Python string slicing `s[:n]`: the first `n` characters. -/
def pySlice (s : String) (n : Nat) : String :=
  String.mk (s.toList.take n)

namespace XMLImportService

/-- `XMLImportService._detect_dataframe_type`
(app/services/xml_service.py:154-173): statistic before workout before
record, decided on the column set alone. -/
def _detect_dataframe_type (df : Chunk) : String :=
  if dfEmpty df then "unknown"
  else if ["sum", "average", "maximum", "minimum"].all (df.cols.contains ·) then "statistic"
  else if df.cols.contains "duration" && df.cols.contains "durationUnit" then "workout"
  else if df.cols.contains "value" then "record"
  else "unknown"

end XMLImportService

/-! ## Typed entities and the per-row builders

`UUID(user_id)` and `pd.to_datetime(...)` are carried opaquely (their own
failure modes are not the subject of any claim; a failure of the one
modelled fallible field constructor, `_safe_decimal`, already exercises
the per-row `except ... raise` path).  The repository services
(`record_service.create` etc., app/services and app/repositories are not
among the pipeline sources) are modelled from the spec: a row write adds
the entity to the run's single open transaction. -/
structure RecordEntity where
  user_id : String
  type : String
  sourceVersion : String
  sourceName : String
  deviceId : String
  startDate : PyVal
  endDate : PyVal
  creationDate : PyVal
  unit : String
  value : Option DecVal
deriving DecidableEq, Repr

structure WorkoutEntity where
  user_id : String
  type : String
  duration : Option DecVal
  durationUnit : String
  sourceName : String
  startDate : PyVal
  endDate : PyVal
  creationDate : PyVal
deriving DecidableEq, Repr

structure StatisticEntity where
  user_id : String
  type : String
  startDate : PyVal
  endDate : PyVal
  creationDate : PyVal
  sum : Option DecVal
  average : Option DecVal
  maximum : Option DecVal
  minimum : Option DecVal
  unit : String
deriving DecidableEq, Repr

inductive Entity
  | record (r : RecordEntity)
  | workout (w : WorkoutEntity)
  | statistic (s : StatisticEntity)
deriving DecidableEq, Repr

/-- Modelled from the spec: the relational store as seen by one
orchestration run — one open transaction whose pending writes become
visible only on commit and disappear on rollback. -/
structure Store where
  committed : List Entity
  pending : List Entity
deriving DecidableEq, Repr

/-- Modelled from the spec: `*_service.create(db_session, obj)` writes one
entity through the repository into the open transaction. -/
def serviceCreate (store : Store) (e : Entity) : Store :=
  { store with pending := store.pending ++ [e] }

/-- `db.commit()`. -/
def storeCommit (store : Store) : Store :=
  { committed := store.committed ++ store.pending, pending := [] }

/-- `db.rollback()`. -/
def storeRollback (store : Store) : Store :=
  { store with pending := [] }

namespace XMLImportService

/-- The `record_data` construction of `_process_records_df`
(app/services/xml_service.py:48-61): string fields truncated via slicing,
`value` through `_safe_decimal`; any raised exception is logged and
re-raised. -/
def buildRecord (user_id : String) (row : Row) : Except PyExc RecordEntity :=
  match _safe_decimal (rowGet row "value" PyVal.none) with
  | Except.error e => Except.error e
  | Except.ok v =>
    Except.ok
      { user_id := user_id
        type := pySlice (pyStr (rowGet row "type" (PyVal.str ""))) 50
        sourceVersion := pySlice (pyStr (rowGet row "sourceVersion" (PyVal.str ""))) 100
        sourceName := pySlice (pyStr (rowGet row "sourceName" (PyVal.str ""))) 100
        deviceId := pySlice (pyStr (rowGet row "device" (PyVal.str ""))) 100
        startDate := rowGet row "startDate" PyVal.none
        endDate := rowGet row "endDate" PyVal.none
        creationDate := rowGet row "creationDate" PyVal.none
        unit := pySlice (pyStr (rowGet row "unit" (PyVal.str ""))) 10
        value := v }

/-- The `workout_data` construction of `_process_workouts_df`
(app/services/xml_service.py:84-93). -/
def buildWorkout (user_id : String) (row : Row) : Except PyExc WorkoutEntity :=
  match _safe_decimal (rowGet row "duration" PyVal.none) with
  | Except.error e => Except.error e
  | Except.ok d =>
    Except.ok
      { user_id := user_id
        type := pySlice (pyStr (rowGet row "type" (PyVal.str "Unknown Workout"))) 50
        duration := d
        durationUnit := pySlice (pyStr (rowGet row "durationUnit" (PyVal.str ""))) 10
        sourceName := pySlice (pyStr (rowGet row "sourceName" (PyVal.str ""))) 100
        startDate := rowGet row "startDate" PyVal.none
        endDate := rowGet row "endDate" PyVal.none
        creationDate := rowGet row "creationDate" PyVal.none }

/-- The `stat_data` construction of `_process_statistics_df`
(app/services/xml_service.py:119-130); the four `_safe_decimal` calls run
in field order. -/
def buildStatistic (user_id : String) (row : Row) : Except PyExc StatisticEntity := do
  let s ← _safe_decimal (rowGet row "sum" PyVal.none)
  let a ← _safe_decimal (rowGet row "average" PyVal.none)
  let mx ← _safe_decimal (rowGet row "maximum" PyVal.none)
  let mn ← _safe_decimal (rowGet row "minimum" PyVal.none)
  Except.ok
    { user_id := user_id
      type := pySlice (pyStr (rowGet row "type" (PyVal.str ""))) 50
      startDate := rowGet row "startDate" PyVal.none
      endDate := rowGet row "endDate" PyVal.none
      creationDate := rowGet row "creationDate" PyVal.none
      sum := s
      average := a
      maximum := mx
      minimum := mn
      unit := pySlice (pyStr (rowGet row "unit" (PyVal.str ""))) 10 }

end XMLImportService

/-! ## Per-chunk persistence and the import loop

Stateful code with exceptions is threaded explicitly: a step returns the
updated state together with `some e` when the Python code raises `e` at
that point (writes performed before the raise stay in the session). -/
namespace XMLImportService

/-- The row loop of `_process_records_df`: build, write, count; a row
failure re-raises, keeping earlier writes pending. -/
def recordRowsLoop (user_id : String) : Store → Nat → List Row → Store × Nat × Option PyExc
  | st, n, [] => (st, n, Option.none)
  | st, n, row :: rest =>
    match buildRecord user_id row with
    | Except.error e => (st, n, some e)
    | Except.ok ent => recordRowsLoop user_id (serviceCreate st (Entity.record ent)) (n + 1) rest

/-- `XMLImportService._process_records_df`
(app/services/xml_service.py:35-69): empty or `type`-less frames
contribute nothing. -/
def _process_records_df (st : Store) (df : Chunk) (user_id : String) :
    Store × Nat × Option PyExc :=
  if dfEmpty df || !(df.cols.contains "type") then (st, 0, Option.none)
  else recordRowsLoop user_id st 0 df.rows

/-- The row loop of `_process_workouts_df`. -/
def workoutRowsLoop (user_id : String) : Store → Nat → List Row → Store × Nat × Option PyExc
  | st, n, [] => (st, n, Option.none)
  | st, n, row :: rest =>
    match buildWorkout user_id row with
    | Except.error e => (st, n, some e)
    | Except.ok ent => workoutRowsLoop user_id (serviceCreate st (Entity.workout ent)) (n + 1) rest

/-- `XMLImportService._process_workouts_df`
(app/services/xml_service.py:71-104). -/
def _process_workouts_df (st : Store) (df : Chunk) (user_id : String) :
    Store × Nat × Option PyExc :=
  if dfEmpty df then (st, 0, Option.none)
  else workoutRowsLoop user_id st 0 df.rows

/-- The row loop of `_process_statistics_df`. -/
def statisticRowsLoop (user_id : String) : Store → Nat → List Row → Store × Nat × Option PyExc
  | st, n, [] => (st, n, Option.none)
  | st, n, row :: rest =>
    match buildStatistic user_id row with
    | Except.error e => (st, n, some e)
    | Except.ok ent => statisticRowsLoop user_id (serviceCreate st (Entity.statistic ent)) (n + 1) rest

/-- `XMLImportService._process_statistics_df`
(app/services/xml_service.py:106-140). -/
def _process_statistics_df (st : Store) (df : Chunk) (user_id : String) :
    Store × Nat × Option PyExc :=
  if dfEmpty df then (st, 0, Option.none)
  else statisticRowsLoop user_id st 0 df.rows

/-- The `stats` dict of `import_xml`. -/
structure ImportStats where
  records : Nat
  workouts : Nat
  statistics : Nat
  chunks_processed : Nat
deriving DecidableEq, Repr

def zeroStats : ImportStats :=
  { records := 0, workouts := 0, statistics := 0, chunks_processed := 0 }

/-- One iteration of the `for df in self.xml_exporter.parse_xml()` body
(app/services/xml_service.py:195-209): skip empty frames before
classification; route by detected type; `chunks_processed` counts every
non-empty frame whatever its classification; an escaped row exception
leaves the counters of this iteration untouched. -/
def importChunkStep (user_id : String) (st : Store) (stats : ImportStats) (df : Chunk) :
    Store × ImportStats × Option PyExc :=
  if dfEmpty df then (st, stats, Option.none)
  else
    let df_type := _detect_dataframe_type df
    let (st', added, raised) :=
      if df_type = "record" then _process_records_df st df user_id
      else if df_type = "workout" then _process_workouts_df st df user_id
      else if df_type = "statistic" then _process_statistics_df st df user_id
      else (st, 0, Option.none)
    match raised with
    | some e => (st', stats, some e)
    | Option.none =>
      let stats' :=
        if df_type = "record" then { stats with records := stats.records + added }
        else if df_type = "workout" then { stats with workouts := stats.workouts + added }
        else if df_type = "statistic" then { stats with statistics := stats.statistics + added }
        else stats
      (st', { stats' with chunks_processed := stats'.chunks_processed + 1 }, Option.none)

/-- The chunk loop of `import_xml`, aborting at the first escaped row
exception. -/
def importLoop (user_id : String) : Store → ImportStats → List Chunk →
    Store × ImportStats × Option PyExc
  | st, stats, [] => (st, stats, Option.none)
  | st, stats, df :: dfs =>
    match importChunkStep user_id st stats df with
    | (st', stats', some e) => (st', stats', some e)
    | (st', stats', Option.none) => importLoop user_id st' stats' dfs

/-- Modelled from the spec: the outcome of the chunked XML parser
(`XMLExporter.parse_xml`, app/utils/xml_exporter.py is not among the
pipeline sources) on one file — a finite sequence of lazily yielded
chunks, optionally followed by a fatal stream error raised mid-iteration. -/
structure ParseOutcome where
  chunks : List Chunk
  streamError : Option PyExc
deriving Repr

/-- `UploadDataResponse` (app/schemas): a plain response message. -/
structure UploadDataResponse where
  response : String
deriving DecidableEq, Repr

def importSuccessMessage (stats : ImportStats) : String :=
  "XML import successful. Records: " ++ toString stats.records ++
    ", Workouts: " ++ toString stats.workouts ++
    ", Statistics: " ++ toString stats.statistics

/-- `XMLImportService.import_xml` (app/services/xml_service.py:175-222).
Every exception of the chunk loop (a parser stream error or an escaped
row failure) is caught by the function's own `except Exception` handler,
which returns a failure-message response instead of re-raising; writes
already made to the session stay pending.  (The `@handle_exceptions`
decorator never sees an exception because of this inner handler, and the
caller in the task module is modelled as actually executing this
coroutine.) -/
def import_xml (st : Store) (user_id : String) (parsed : ParseOutcome) :
    Store × UploadDataResponse :=
  match importLoop user_id st zeroStats parsed.chunks with
  | (st', _, some e) => (st', { response := "XML import failed: " ++ pyExcStr e })
  | (st', stats, Option.none) =>
    match parsed.streamError with
    | some e => (st', { response := "XML import failed: " ++ pyExcStr e })
    | Option.none => (st', { response := importSuccessMessage stats })

end XMLImportService

/-! ## String helpers for the task module

Python `key.split('/')` and `str.replace`, implemented on character lists
(every occurrence of the pattern is replaced, left to right,
non-overlapping; the code never uses an empty pattern). -/
def pySplitChar (sep : Char) : List Char → List (List Char)
  | [] => [[]]
  | c :: rest =>
    match pySplitChar sep rest with
    | [] => [[]]
    | g :: gs => if c = sep then [] :: g :: gs else (c :: g) :: gs

def pySplit (s : String) (sep : Char) : List String :=
  (pySplitChar sep s.toList).map String.mk

def listStartsWith : List Char → List Char → Bool
  | _, [] => true
  | [], _ :: _ => false
  | a :: as, b :: bs => a = b && listStartsWith as bs

def pyReplaceAux (pat sub : List Char) : Nat → List Char → List Char
  | _, [] => []
  | 0, cs => cs
  | fuel + 1, c :: rest =>
    if listStartsWith (c :: rest) pat then
      sub ++ pyReplaceAux pat sub fuel ((c :: rest).drop pat.length)
    else c :: pyReplaceAux pat sub fuel rest

def pyReplace (s pat sub : String) : String :=
  if pat.toList.isEmpty then s
  else String.mk (pyReplaceAux pat.toList sub.toList s.toList.length s.toList)

example : pySplit "u1/raw/export.xml" '/' = ["u1", "raw", "export.xml"] := by decide
example : pyReplace "export.xml" ".xml" ".sql" = "export.sql" := by decide

/-! ## The orchestration task (app/tasks/process_uploaded_task.py)

`process_uploaded_xml_file` drives one file end to end.  The filesystem is
the set of temporary file paths present; S3, the database commit and
`pg_dump` are oracles describing the outcome of each external call
(`Option PyExc` / `Option String` — `none` means the call succeeds).  The
call `xml_import_service.import_xml(...)` is modelled as executing
`XMLImportService.import_xml` on the downloaded file's parse outcome. -/
abbrev FS := List String

def fsAdd (fs : FS) (p : String) : FS :=
  if fs.contains p then fs else fs ++ [p]

/-- `if os.path.exists(p): os.remove(p)`. -/
def fsRemoveIfExists (fs : FS) (p : String) : FS :=
  fs.filter (fun q => q ≠ p)

namespace process_uploaded_task

/-- `object_key.split('/')[0]`. -/
def firstSegment (key : String) : String :=
  (pySplit key '/').headD ""

/-- `object_key.split('/')[-1]`. -/
def lastSegment (key : String) : String :=
  (pySplit key '/').getLastD ""

/-- `os.path.join(temp_dir, f"temp_import_{...}")`. -/
def tempXmlPath (object_key : String) : String :=
  "/tmp/temp_import_" ++ lastSegment object_key

/-- `os.path.join(temp_dir, f"export_{filename.replace('.xml', '.sql')}")`. -/
def dumpFilePath (object_key : String) : String :=
  "/tmp/export_" ++ pyReplace (lastSegment object_key) ".xml" ".sql"

/-- `f"{user_id}/processed/{filename.replace('.xml', '.sql')}"`. -/
def outputKeyFor (user_id object_key : String) : String :=
  user_id ++ "/processed/" ++ pyReplace (lastSegment object_key) ".xml" ".sql"

/-- The dict returned by the task. -/
structure TaskResult where
  bucket : String
  input_key : String
  output_key : Option String
  user_id : String
  status : String
  message : Option String
  error : Option String
deriving DecidableEq, Repr

/-- Outcome oracle for the external calls of one run; `none` means the
call succeeds.  `downloadLeavesFile` / `dumpLeavesFile` say whether a
failing download / dump leaves a partial file behind. -/
structure OrchEnv where
  downloadError : Option PyExc
  downloadLeavesFile : Bool
  parsed : XMLImportService.ParseOutcome
  commitError : Option PyExc
  dumpStderr : Option String
  dumpLeavesFile : Bool
  uploadError : Option PyExc
deriving Repr

/-- `_create_postgres_dump` (app/tasks/process_uploaded_task.py:91-105):
a nonzero `pg_dump` exit is re-raised as
`Exception(f"pg_dump failed: {stderr}")`. -/
def _create_postgres_dump (outcome : Option String) : Option PyExc :=
  match outcome with
  | Option.none => Option.none
  | some stderr => some (PyExc.calledProcessError stderr)

/-- The `finally` block (app/tasks/process_uploaded_task.py:83-88):
`temp_xml_file` is assigned before any failure point, so it is always
cleaned; `dump_file` is only assigned once the transaction committed. -/
def cleanupFinally (fs : FS) (tempXml dumpFile : String) (dumpFileSet : Bool) : FS :=
  let fs1 := fsRemoveIfExists fs tempXml
  if dumpFileSet then fsRemoveIfExists fs1 dumpFile else fs1

/-- `process_uploaded_xml_file` (app/tasks/process_uploaded_task.py:13-88).
Steps: derive `user_id` when absent or empty, download, one transaction
around `import_xml` (rollback and re-raise if `commit` fails — note that
`import_xml` itself never raises), `pg_dump`, upload; the `except` turns
any raised exception into a `failed` result dict and the `finally`
removes whichever temporary files were assigned. -/
def process_uploaded_xml_file (env : OrchEnv) (fs0 : FS) (store0 : Store)
    (bucket_name object_key : String) (user_id : Option String) :
    TaskResult × FS × Store :=
  let uid :=
    match user_id with
    | Option.none => firstSegment object_key
    | some u => if u = "" then firstSegment object_key else u
  let tempXml := tempXmlPath object_key
  let dumpFile := dumpFilePath object_key
  let failed := fun (e : PyExc) (fs : FS) (st : Store) (dumpFileSet : Bool) =>
    (({ bucket := bucket_name, input_key := object_key, output_key := Option.none,
        user_id := uid, status := "failed", message := Option.none,
        error := some (pyExcStr e) } : TaskResult),
     cleanupFinally fs tempXml dumpFile dumpFileSet, st)
  match env.downloadError with
  | some e =>
    failed e (if env.downloadLeavesFile then fsAdd fs0 tempXml else fs0) store0 false
  | Option.none =>
    let fs1 := fsAdd fs0 tempXml
    let imported := XMLImportService.import_xml store0 uid env.parsed
    let store1 := imported.1
    let response := imported.2
    match env.commitError with
    | some e => failed e fs1 (storeRollback store1) false
    | Option.none =>
      let store2 := storeCommit store1
      match _create_postgres_dump env.dumpStderr with
      | some e =>
        failed e (if env.dumpLeavesFile then fsAdd fs1 dumpFile else fs1) store2 true
      | Option.none =>
        let fs2 := fsAdd fs1 dumpFile
        match env.uploadError with
        | some e => failed e fs2 store2 true
        | Option.none =>
          (({ bucket := bucket_name, input_key := object_key,
              output_key := some (outputKeyFor uid object_key),
              user_id := uid, status := "success",
              message := some response.response, error := Option.none } : TaskResult),
           cleanupFinally fs2 tempXml dumpFile true, store2)

end process_uploaded_task

namespace process_upload_task

/-- The chunk dispatch of `_import_xml_data`
(app/tasks/process_upload_task.py:109-119): empty frames are skipped,
then `value` is tested before `duration` before `sum` — the opposite
priority to `XMLImportService._detect_dataframe_type`. -/
def _import_xml_data_route (df : Chunk) : String :=
  if dfEmpty df then "skipped"
  else if df.cols.contains "value" then "record"
  else if df.cols.contains "duration" then "workout"
  else if df.cols.contains "sum" then "statistic"
  else "none"

end process_upload_task

/-! ## The queue consumer (app/tasks/tasks.py)

Message bodies are JSON values; `m.body` is the outcome of
`json.loads(message['Body'])`.  Dispatching a Celery task
(`process_uploaded_file.delay(bucket, key)`) is recorded as a
`(bucket, key)` pair — the consumer fires and forgets, so nothing in the
poll depends on whether the dispatched task later succeeds. -/
inductive Json
  | null
  | bool (b : Bool)
  | num (n : Int)
  | str (s : String)
  | arr (xs : List Json)
  | obj (fields : List (String × Json))

/-- Python `j == "lit"` for a JSON value against a string literal. -/
def Json.isStr (j : Json) (s : String) : Bool :=
  match j with
  | Json.str t => t == s
  | _ => false

/-- `'k' in body` for a dict body (the inbound notification contract makes
the body a JSON object; other body shapes are excluded by the
well-formedness hypotheses below). -/
def jsonHasKey (j : Json) (k : String) : Bool :=
  match j with
  | Json.obj fs => fs.any (fun f => k == f.1)
  | _ => false

/-- `body['k']` / `record['s3']['bucket']['name']`-style indexing:
`KeyError` on a missing key, `TypeError` on a non-dict. -/
def jsonGet (j : Json) (k : String) : Except PyExc Json :=
  match j with
  | Json.obj fs =>
    match fs.lookup k with
    | some v => Except.ok v
    | Option.none => Except.error PyExc.keyError
  | _ => Except.error PyExc.typeError

namespace tasks

/-- One received SQS message: the parse outcome of its body, plus its
receipt handle. -/
structure SqsMessage where
  body : Except PyExc Json
  receiptHandle : String

/-- State accumulated during one `poll_sqs_messages` call: tasks
dispatched so far, receipt handles deleted so far, and the
`processed_count` counter (one per dispatched record). -/
structure PollState where
  dispatched : List (Json × Json)
  deleted : List String
  processedCount : Nat

def emptyPollState : PollState :=
  { dispatched := [], deleted := [], processedCount := 0 }

/-- One record of `message_body['Records']`
(app/tasks/tasks.py:43-51): `record.get('eventSource')` needs a dict
(`AttributeError` otherwise); only `'aws:s3'` records dispatch, after
extracting `s3.bucket.name` and `s3.object.key`. -/
def processRecord (r : Json) : Except PyExc (Option (Json × Json)) :=
  match r with
  | Json.obj fs =>
    let es :=
      match fs.lookup "eventSource" with
      | some v => v.isStr "aws:s3"
      | Option.none => false
    if es then do
      let s3 ← jsonGet r "s3"
      let bucket ← jsonGet s3 "bucket"
      let name ← jsonGet bucket "name"
      let object ← jsonGet s3 "object"
      let key ← jsonGet object "key"
      Except.ok (some (name, key))
    else Except.ok Option.none
  | _ => Except.error PyExc.attributeError

/-- The `for record in message_body['Records']` loop: dispatches performed
before a raise are kept, the raise aborts the rest. -/
def recordsLoop : PollState → List Json → PollState × Option PyExc
  | st, [] => (st, Option.none)
  | st, r :: rs =>
    match processRecord r with
    | Except.error e => (st, some e)
    | Except.ok Option.none => recordsLoop st rs
    | Except.ok (some p) =>
      recordsLoop
        { st with dispatched := st.dispatched ++ [p], processedCount := st.processedCount + 1 } rs

/-- The per-message body of `poll_sqs_messages` (app/tasks/tasks.py:37-60):
parse the body, dispatch for each `aws:s3` record if any, then delete the
message; the inner `except` just re-raises, so a failure skips the
delete and aborts the whole poll. -/
def processMessage (st : PollState) (m : SqsMessage) : PollState × Option PyExc :=
  match m.body with
  | Except.error e => (st, some e)
  | Except.ok b =>
    if jsonHasKey b "Records" then
      match jsonGet b "Records" with
      | Except.error e => (st, some e)
      | Except.ok (Json.arr rs) =>
        match recordsLoop st rs with
        | (st', some e) => (st', some e)
        | (st', Option.none) => ({ st' with deleted := st'.deleted ++ [m.receiptHandle] }, Option.none)
      | Except.ok _ => (st, some PyExc.typeError)
    else ({ st with deleted := st.deleted ++ [m.receiptHandle] }, Option.none)

/-- The message loop of `poll_sqs_messages`; a raise aborts the remaining
messages (the outer handler turns it into an HTTPException for the
caller), side effects already performed stay. -/
def pollLoop : PollState → List SqsMessage → PollState × Option PyExc
  | st, [] => (st, Option.none)
  | st, m :: ms =>
    match processMessage st m with
    | (st', some e) => (st', some e)
    | (st', Option.none) => pollLoop st' ms

/-- `poll_sqs_messages` (app/tasks/tasks.py:20-69) over one received
batch. -/
def poll_sqs_messages (msgs : List SqsMessage) : PollState × Option PyExc :=
  pollLoop emptyPollState msgs

/-! ### The bounded repeated-poll task -/

/-- Observable events of `poll_sqs_task`. -/
inductive PollEvent
  | poll
  | sleep (seconds : Nat)
deriving DecidableEq, Repr

/-- The `for _ in range(...)` body: each iteration awaits one poll and
then sleeps 5 seconds; `pollOk i` says whether the i-th
`poll_sqs_messages()` call returns normally — if it raises, the loop
aborts with the iterations left undone. -/
def pollTaskLoop (pollOk : Nat → Bool) : Nat → Nat → List PollEvent
  | _, 0 => []
  | i, n + 1 =>
    if pollOk i then PollEvent.poll :: PollEvent.sleep 5 :: pollTaskLoop pollOk (i + 1) n
    else [PollEvent.poll]

/-- `poll_sqs_task(expiration_seconds)` (app/tasks/tasks.py:113-117):
`range(expiration_seconds // 5)` iterations (Python floor division; a
non-positive count yields an empty range). -/
def poll_sqs_task (expiration_seconds : Int) (pollOk : Nat → Bool) : List PollEvent :=
  pollTaskLoop pollOk 0 (Int.fdiv expiration_seconds 5).toNat

end tasks

example : Decimal_ofString "1.5" = Except.ok (DecVal.num 15 (-1)) := by decide
example : Decimal_ofString "0.0" = Except.ok (DecVal.num 0 0) := by decide
example : Decimal_ofString "-0.0" = Except.ok (DecVal.num 0 0) := by decide
example : Decimal_ofString "abc" = Except.error PyExc.invalidOperation := by decide
example : Decimal_ofString "1e3" = Except.ok (DecVal.num 1 3) := by decide
example : Decimal_ofString "10" = Except.ok (DecVal.num 1 1) := by decide
example : Decimal_ofString "nan" = Except.ok DecVal.nan := by decide
example : Decimal_ofString "" = Except.error PyExc.invalidOperation := by decide
example : Decimal_ofString "Infinity" = Except.ok (DecVal.inf false) := by decide
example : Decimal_ofString "72" = Except.ok (DecVal.num 72 0) := by decide

/-! ## Claims -/

/-- C2: the claim says that for every scalar `v` whose strict decimal
parse fails (and which is not the float-zero sentinel), `_safe_decimal v`
returns `None` and never raises.  On the code this fails: `Decimal(str(v))`
raises `decimal.InvalidOperation` on a syntax error, which the
`except (ValueError, TypeError)` clause does not catch, so
`_safe_decimal("abc")` raises instead of returning `None`. -/
theorem C2_safe_decimal_raises_on_parse_failure :
    Decimal_ofString (pyStr (PyVal.str "abc")) = Except.error PyExc.invalidOperation ∧
    floatIsZero (PyVal.str "abc") = false ∧
    XMLImportService._safe_decimal (PyVal.str "abc") = Except.error PyExc.invalidOperation := by
  refine ⟨by decide, by decide, by decide⟩

/-- C10: the two decimal coercers agree on every input: the service
version short-circuits a float equal to `0.0` to `Decimal("0")`, while
the task version parses its repr (`"0.0"` or `"-0.0"`), but both denote
the same decimal value zero; on every other input the two functions are
the same code. -/
theorem C10_safe_decimal_extensionally_equal (v : PyVal) :
    XMLImportService._safe_decimal v = process_upload_task._safe_decimal v := by
  cases v with
  | none => rfl
  | str s => rfl
  | int n => rfl
  | float r =>
    by_cases h1 : r = "0.0"
    · subst h1; decide
    · by_cases h2 : r = "-0.0"
      · subst h2; decide
      · have hz : floatIsZero (PyVal.float r) = false := by
          simp [floatIsZero, h1, h2]
        simp only [XMLImportService._safe_decimal, process_upload_task._safe_decimal, hz]
        simp

/-- A non-empty chunk carrying the full statistic signature together with
a `value` column. -/
def statValueChunk : Chunk :=
  { cols := ["type", "sum", "average", "maximum", "minimum", "value", "unit"],
    rows := [[("type", PyVal.str "HKWorkoutStatistic")]] }

/-- C3 counterexample: the claim also asserts (citing
`_import_xml_data`, app/tasks/process_upload_task.py:109-119) that a
chunk with columns `{type, sum, average, maximum, minimum, value, unit}`
is routed to the statistic persistence path; that dispatch tests `value`
first and sends the chunk to the record path instead. -/
theorem C3_counterexample_value_wins_in_import_xml_data :
    process_upload_task._import_xml_data_route statValueChunk = "record" ∧
    process_upload_task._import_xml_data_route statValueChunk ≠ "statistic" := by
  refine ⟨by decide, by decide⟩

/-- C3 (amended): for every non-empty chunk whose columns include
`{sum, average, maximum, minimum}`, `_detect_dataframe_type` classifies
it Statistic even when `value` or `duration` is also present (and
`import_xml` routes by that classification); but the separate
`_import_xml_data` dispatch in `process_upload_task.py` tests `value`
first, so there such a chunk with a `value` column goes to the record
path. -/
theorem C3_statistic_priority (df : Chunk) (h1 : dfEmpty df = false)
    (h2 : (["sum", "average", "maximum", "minimum"].all (df.cols.contains ·)) = true) :
    XMLImportService._detect_dataframe_type df = "statistic" ∧
    (df.cols.contains "value" = true →
      process_upload_task._import_xml_data_route df = "record") := by
  constructor
  · unfold XMLImportService._detect_dataframe_type
    rw [h1, h2]
    simp
  · intro hv
    unfold process_upload_task._import_xml_data_route
    rw [h1, hv]
    simp

theorem C3_statistic_priority_witness :
    dfEmpty statValueChunk = false ∧
    (["sum", "average", "maximum", "minimum"].all (statValueChunk.cols.contains ·)) = true ∧
    (XMLImportService._detect_dataframe_type statValueChunk = "statistic" ∧
      (statValueChunk.cols.contains "value" = true →
        process_upload_task._import_xml_data_route statValueChunk = "record")) :=
  ⟨by decide, by decide, C3_statistic_priority statValueChunk (by decide) (by decide)⟩

theorem pollTaskLoop_count (pollOk : Nat → Bool) (hok : ∀ i, pollOk i = true) :
    ∀ n i, ((tasks.pollTaskLoop pollOk i n).countP (fun ev => ev == tasks.PollEvent.poll)) = n := by
  intro n
  induction n with
  | zero => intro i; rfl
  | succ k ih =>
    intro i
    unfold tasks.pollTaskLoop
    rw [hok i]
    simp [List.countP_cons, ih (i + 1)]

theorem pollTaskLoop_events (pollOk : Nat → Bool) :
    ∀ n i ev, ev ∈ tasks.pollTaskLoop pollOk i n →
      ev = tasks.PollEvent.poll ∨ ev = tasks.PollEvent.sleep 5 := by
  intro n
  induction n with
  | zero =>
    intro i ev h
    simp [tasks.pollTaskLoop] at h
  | succ k ih =>
    intro i ev h
    cases hp : pollOk i with
    | true =>
      simp only [tasks.pollTaskLoop, hp, if_true, List.mem_cons] at h
      rcases h with h | h | h
      · exact Or.inl h
      · exact Or.inr h
      · exact ih (i + 1) ev h
    | false =>
      simp only [tasks.pollTaskLoop, hp, Bool.false_eq_true, if_false, List.mem_cons,
        List.not_mem_nil, or_false] at h
      exact Or.inl h

/-- C9: `poll_sqs_task(expiration_seconds)` performs exactly
`expiration_seconds // 5` poll iterations, each followed by a fixed
5-second sleep, and then terminates (the trace is finite); the
hypotheses are a non-negative duration budget and that no poll call
raises (a raised `HTTPException` would abort the loop early). -/
theorem C9_poll_task_budget (e : Int) (pollOk : Nat → Bool)
    (h : 0 ≤ e) (hok : ∀ i, pollOk i = true) :
    ((tasks.poll_sqs_task e pollOk).countP (fun ev => ev == tasks.PollEvent.poll)) = e.toNat / 5 ∧
    ∀ ev ∈ tasks.poll_sqs_task e pollOk,
      ev = tasks.PollEvent.poll ∨ ev = tasks.PollEvent.sleep 5 := by
  obtain ⟨n, rfl⟩ := Int.eq_ofNat_of_zero_le h
  have hdiv : (Int.fdiv (n : Int) 5).toNat = n / 5 := by
    cases n with
    | zero => rfl
    | succ m => rfl
  have hfold : tasks.poll_sqs_task (n : Int) pollOk = tasks.pollTaskLoop pollOk 0 (n / 5) := by
    unfold tasks.poll_sqs_task
    rw [hdiv]
  rw [hfold]
  constructor
  · exact pollTaskLoop_count pollOk hok (n / 5) 0
  · intro ev hev
    exact pollTaskLoop_events pollOk (n / 5) 0 ev hev

theorem C9_poll_task_budget_witness :
    (0 : Int) ≤ 17 ∧
    (((tasks.poll_sqs_task 17 (fun _ => true)).countP
        (fun ev => ev == tasks.PollEvent.poll)) = (17 : Int).toNat / 5 ∧
      ∀ ev ∈ tasks.poll_sqs_task 17 (fun _ => true),
        ev = tasks.PollEvent.poll ∨ ev = tasks.PollEvent.sleep 5) :=
  ⟨by decide, C9_poll_task_budget 17 (fun _ => true) (by decide) (fun _ => rfl)⟩

theorem pySlice_length_le (s : String) (n : Nat) : (pySlice s n).length ≤ n := by
  have h : (pySlice s n).length = (s.toList.take n).length := rfl
  rw [h, List.length_take]
  exact min_le_left _ _

/-- The string fields of a record entity are the Python slices of the
raw values at their declared maximum lengths: `type` at 50,
`sourceVersion`/`sourceName`/`deviceId` at 100, `unit` at 10
characters. -/
def recordTruncationSpec (row : Row) (rEnt : RecordEntity) : Prop :=
  (rEnt.type = pySlice (pyStr (rowGet row "type" (PyVal.str ""))) 50 ∧
      rEnt.type.length ≤ 50) ∧
  (rEnt.sourceVersion = pySlice (pyStr (rowGet row "sourceVersion" (PyVal.str ""))) 100 ∧
      rEnt.sourceVersion.length ≤ 100) ∧
  (rEnt.sourceName = pySlice (pyStr (rowGet row "sourceName" (PyVal.str ""))) 100 ∧
      rEnt.sourceName.length ≤ 100) ∧
  (rEnt.deviceId = pySlice (pyStr (rowGet row "device" (PyVal.str ""))) 100 ∧
      rEnt.deviceId.length ≤ 100) ∧
  (rEnt.unit = pySlice (pyStr (rowGet row "unit" (PyVal.str ""))) 10 ∧
      rEnt.unit.length ≤ 10)

/-- The string fields of a workout entity are the Python slices of the
raw values at their declared maximum lengths: `type` at 50, `sourceName`
at 100, `durationUnit` at 10 characters. -/
def workoutTruncationSpec (row : Row) (wEnt : WorkoutEntity) : Prop :=
  (wEnt.type = pySlice (pyStr (rowGet row "type" (PyVal.str "Unknown Workout"))) 50 ∧
      wEnt.type.length ≤ 50) ∧
  (wEnt.durationUnit = pySlice (pyStr (rowGet row "durationUnit" (PyVal.str ""))) 10 ∧
      wEnt.durationUnit.length ≤ 10) ∧
  (wEnt.sourceName = pySlice (pyStr (rowGet row "sourceName" (PyVal.str ""))) 100 ∧
      wEnt.sourceName.length ≤ 100)

/-- The string fields of a statistic entity are the Python slices of the
raw values at their declared maximum lengths: `type` at 50, `unit` at 10
characters. -/
def statisticTruncationSpec (row : Row) (sEnt : StatisticEntity) : Prop :=
  (sEnt.type = pySlice (pyStr (rowGet row "type" (PyVal.str ""))) 50 ∧
      sEnt.type.length ≤ 50) ∧
  (sEnt.unit = pySlice (pyStr (rowGet row "unit" (PyVal.str ""))) 10 ∧
      sEnt.unit.length ≤ 10)

/-- C6: whenever a persister builds an entity from a row — a record
entity from `rowR`, a workout entity from `rowW`, a statistic entity
from `rowS`, each row arbitrary and independent of the others — that
entity's string fields are truncated (by slicing, never by rejection) to
their declared maximum lengths before construction. -/
theorem C6_entity_string_fields_truncated (uid : String) (rowR rowW rowS : Row)
    (rEnt : RecordEntity) (wEnt : WorkoutEntity) (sEnt : StatisticEntity)
    (hr : XMLImportService.buildRecord uid rowR = Except.ok rEnt)
    (hw : XMLImportService.buildWorkout uid rowW = Except.ok wEnt)
    (hs : XMLImportService.buildStatistic uid rowS = Except.ok sEnt) :
    recordTruncationSpec rowR rEnt ∧ workoutTruncationSpec rowW wEnt ∧
      statisticTruncationSpec rowS sEnt := by
  refine ⟨?_, ?_, ?_⟩
  · simp only [XMLImportService.buildRecord] at hr
    cases hval : XMLImportService._safe_decimal (rowGet rowR "value" PyVal.none) with
    | error e =>
      rw [hval] at hr
      cases hr
    | ok v =>
      rw [hval] at hr
      injection hr with hr'
      subst hr'
      exact ⟨⟨rfl, pySlice_length_le _ _⟩, ⟨rfl, pySlice_length_le _ _⟩,
        ⟨rfl, pySlice_length_le _ _⟩, ⟨rfl, pySlice_length_le _ _⟩,
        ⟨rfl, pySlice_length_le _ _⟩⟩
  · simp only [XMLImportService.buildWorkout] at hw
    cases hdur : XMLImportService._safe_decimal (rowGet rowW "duration" PyVal.none) with
    | error e =>
      rw [hdur] at hw
      cases hw
    | ok d =>
      rw [hdur] at hw
      injection hw with hw'
      subst hw'
      exact ⟨⟨rfl, pySlice_length_le _ _⟩, ⟨rfl, pySlice_length_le _ _⟩,
        ⟨rfl, pySlice_length_le _ _⟩⟩
  · simp only [XMLImportService.buildStatistic] at hs
    cases h1 : XMLImportService._safe_decimal (rowGet rowS "sum" PyVal.none) with
    | error e => simp [h1, Bind.bind, Except.bind] at hs
    | ok sv =>
      cases h2 : XMLImportService._safe_decimal (rowGet rowS "average" PyVal.none) with
      | error e => simp [h1, h2, Bind.bind, Except.bind] at hs
      | ok av =>
        cases h3 : XMLImportService._safe_decimal (rowGet rowS "maximum" PyVal.none) with
        | error e => simp [h1, h2, h3, Bind.bind, Except.bind] at hs
        | ok mx =>
          cases h4 : XMLImportService._safe_decimal (rowGet rowS "minimum" PyVal.none) with
          | error e => simp [h1, h2, h3, h4, Bind.bind, Except.bind] at hs
          | ok mn =>
            simp only [h1, h2, h3, h4, Bind.bind, Except.bind] at hs
            injection hs with hs'
            subst hs'
            exact ⟨⟨rfl, pySlice_length_le _ _⟩, ⟨rfl, pySlice_length_le _ _⟩⟩

/-- A row whose string fields exceed every declared maximum length. -/
def longRow : Row :=
  [("type", PyVal.str (String.mk (List.replicate 60 'a'))),
   ("sourceName", PyVal.str (String.mk (List.replicate 120 'b'))),
   ("durationUnit", PyVal.str "minutesminutes"),
   ("value", PyVal.str "1"),
   ("duration", PyVal.str "2.5")]

/-- A statistic row whose string fields exceed their maximum lengths. -/
def longStatRow : Row :=
  [("type", PyVal.str (String.mk (List.replicate 55 'c'))),
   ("unit", PyVal.str "kilocalories"),
   ("sum", PyVal.str "10.5")]

def longRowRecordEntity : RecordEntity :=
  { user_id := "u"
    type := String.mk (List.replicate 50 'a')
    sourceVersion := ""
    sourceName := String.mk (List.replicate 100 'b')
    deviceId := ""
    startDate := PyVal.none
    endDate := PyVal.none
    creationDate := PyVal.none
    unit := ""
    value := some (DecVal.num 1 0) }

def longRowWorkoutEntity : WorkoutEntity :=
  { user_id := "u"
    type := String.mk (List.replicate 50 'a')
    duration := some (DecVal.num 25 (-1))
    durationUnit := "minutesmin"
    sourceName := String.mk (List.replicate 100 'b')
    startDate := PyVal.none
    endDate := PyVal.none
    creationDate := PyVal.none }

def longStatEntity : StatisticEntity :=
  { user_id := "u"
    type := String.mk (List.replicate 50 'c')
    startDate := PyVal.none
    endDate := PyVal.none
    creationDate := PyVal.none
    sum := some (DecVal.num 105 (-1))
    average := Option.none
    maximum := Option.none
    minimum := Option.none
    unit := "kilocalori" }

theorem C6_entity_string_fields_truncated_witness :
    XMLImportService.buildRecord "u" longRow = Except.ok longRowRecordEntity ∧
    XMLImportService.buildWorkout "u" longRow = Except.ok longRowWorkoutEntity ∧
    XMLImportService.buildStatistic "u" longStatRow = Except.ok longStatEntity ∧
    (recordTruncationSpec longRow longRowRecordEntity ∧
      workoutTruncationSpec longRow longRowWorkoutEntity ∧
      statisticTruncationSpec longStatRow longStatEntity) :=
  ⟨by decide, by decide, by decide,
    C6_entity_string_fields_truncated "u" longRow longRow longStatRow
      longRowRecordEntity longRowWorkoutEntity longStatEntity
      (by decide) (by decide) (by decide)⟩

theorem importChunkStep_empty (uid : String) (st : Store)
    (stats : XMLImportService.ImportStats) (df : Chunk) (hd : dfEmpty df = true) :
    XMLImportService.importChunkStep uid st stats df = (st, stats, Option.none) := by
  unfold XMLImportService.importChunkStep
  rw [hd]
  simp

theorem importChunkStep_count (uid : String) (st : Store)
    (stats : XMLImportService.ImportStats) (df : Chunk)
    (st2 : Store) (stats2 : XMLImportService.ImportStats)
    (h : XMLImportService.importChunkStep uid st stats df = (st2, stats2, Option.none)) :
    stats2.chunks_processed = stats.chunks_processed + (if dfEmpty df then 0 else 1) := by
  by_cases hd : dfEmpty df = true
  · rw [importChunkStep_empty uid st stats df hd] at h
    injection h with h1 h23
    injection h23 with h2 h3
    rw [← h2, hd]
    simp
  · have hd' : dfEmpty df = false := by
      cases hdf : dfEmpty df
      · rfl
      · exact absurd hdf hd
    unfold XMLImportService.importChunkStep at h
    rw [hd'] at h
    simp only [Bool.false_eq_true, if_false] at h
    rcases hR :
        (if XMLImportService._detect_dataframe_type df = "record" then
          XMLImportService._process_records_df st df uid
        else if XMLImportService._detect_dataframe_type df = "workout" then
          XMLImportService._process_workouts_df st df uid
        else if XMLImportService._detect_dataframe_type df = "statistic" then
          XMLImportService._process_statistics_df st df uid
        else (st, 0, Option.none)) with ⟨stA, added, raised⟩
    rw [hR] at h
    cases raised with
    | some e => simp at h
    | none =>
      simp only [] at h
      injection h with h1 h23
      injection h23 with h2 h3
      rw [← h2, hd']
      simp only [Bool.false_eq_true, if_false]
      have hcp :
          (if XMLImportService._detect_dataframe_type df = "record" then
            { stats with records := stats.records + added }
          else if XMLImportService._detect_dataframe_type df = "workout" then
            { stats with workouts := stats.workouts + added }
          else if XMLImportService._detect_dataframe_type df = "statistic" then
            { stats with statistics := stats.statistics + added }
          else stats : XMLImportService.ImportStats).chunks_processed =
            stats.chunks_processed := by
        split
        · rfl
        · split
          · rfl
          · split
            · rfl
            · rfl
      rw [hcp]

theorem importLoop_chunks_count (uid : String) :
    ∀ (chunks : List Chunk) (st : Store) (stats : XMLImportService.ImportStats)
      (st' : Store) (stats' : XMLImportService.ImportStats),
      XMLImportService.importLoop uid st stats chunks = (st', stats', Option.none) →
      stats'.chunks_processed =
        stats.chunks_processed + chunks.countP (fun c => !(dfEmpty c)) := by
  intro chunks
  induction chunks with
  | nil =>
    intro st stats st' stats' h
    injection h with h1 h23
    injection h23 with h2 h3
    rw [← h2]
    simp [List.countP_nil]
  | cons df dfs ih =>
    intro st stats st' stats' h
    unfold XMLImportService.importLoop at h
    rcases hstep : XMLImportService.importChunkStep uid st stats df with ⟨stA, statsA, raised⟩
    rw [hstep] at h
    cases raised with
    | some e => simp at h
    | none =>
      have hA := importChunkStep_count uid st stats df stA statsA hstep
      have hrec := ih stA statsA st' stats' h
      rw [hrec, hA, List.countP_cons]
      by_cases hd : dfEmpty df = true
      · simp [hd]
      · have hd' : dfEmpty df = false := by
          cases hdf : dfEmpty df
          · rfl
          · exact absurd hdf hd
        simp [hd']
        omega

/-- C5: after a run of the chunk loop that completes without an escaped
exception, `chunks_processed` equals the number of non-empty chunks the
parser produced, whatever each chunk's classification; and on an empty
chunk the loop body is the identity — classification is never consulted
and no counter moves. -/
theorem C5_chunks_processed_counts_nonempty_chunks (uid : String)
    (chunks : List Chunk) (st st' : Store) (stats' : XMLImportService.ImportStats)
    (df0 : Chunk) (st0 : Store) (stats0 : XMLImportService.ImportStats)
    (h : XMLImportService.importLoop uid st XMLImportService.zeroStats chunks =
      (st', stats', Option.none))
    (hd : dfEmpty df0 = true) :
    stats'.chunks_processed = chunks.countP (fun c => !(dfEmpty c)) ∧
    XMLImportService.importChunkStep uid st0 stats0 df0 = (st0, stats0, Option.none) := by
  constructor
  · have := importLoop_chunks_count uid chunks st XMLImportService.zeroStats st' stats' h
    simpa [XMLImportService.zeroStats] using this
  · exact importChunkStep_empty uid st0 stats0 df0 hd

def c5EmptyChunk : Chunk := { cols := ["type", "value"], rows := [] }

def c5RecordChunk : Chunk :=
  { cols := ["type", "value"], rows := [[("type", PyVal.str "T"), ("value", PyVal.str "7")]] }

def c5UnknownChunk : Chunk := { cols := ["foo"], rows := [[("foo", PyVal.str "x")]] }

def c5Chunks : List Chunk := [c5EmptyChunk, c5RecordChunk, c5UnknownChunk]

def c5Entity : RecordEntity :=
  { user_id := "u", type := "T", sourceVersion := "", sourceName := "", deviceId := ""
    startDate := PyVal.none, endDate := PyVal.none, creationDate := PyVal.none
    unit := "", value := some (DecVal.num 7 0) }

def c5FinalStats : XMLImportService.ImportStats :=
  { records := 1, workouts := 0, statistics := 0, chunks_processed := 2 }

def c5FinalStore : Store := { committed := [], pending := [Entity.record c5Entity] }

theorem C5_chunks_processed_counts_nonempty_chunks_witness :
    (XMLImportService.importLoop "u" { committed := [], pending := [] }
        XMLImportService.zeroStats c5Chunks = (c5FinalStore, c5FinalStats, Option.none)) ∧
    dfEmpty c5EmptyChunk = true ∧
    (c5FinalStats.chunks_processed = c5Chunks.countP (fun c => !(dfEmpty c)) ∧
      XMLImportService.importChunkStep "u" c5FinalStore c5FinalStats c5EmptyChunk =
        (c5FinalStore, c5FinalStats, Option.none)) :=
  ⟨by decide, by decide,
    C5_chunks_processed_counts_nonempty_chunks "u" c5Chunks
      { committed := [], pending := [] } c5FinalStore c5FinalStats
      c5EmptyChunk c5FinalStore c5FinalStats (by decide) (by decide)⟩

theorem not_mem_fsRemove_self (fs : FS) (p : String) : p ∉ fsRemoveIfExists fs p := by
  intro hmem
  rw [fsRemoveIfExists, List.mem_filter] at hmem
  exact (of_decide_eq_true hmem.2) rfl

theorem mem_of_mem_fsRemove {fs : FS} {p q : String}
    (h : q ∈ fsRemoveIfExists fs p) : q ∈ fs :=
  (List.mem_filter.mp h).1

theorem ne_of_mem_fsRemove {fs : FS} {p q : String}
    (h : q ∈ fsRemoveIfExists fs p) : q ≠ p :=
  of_decide_eq_true (List.mem_filter.mp h).2

theorem mem_fsAdd_elim {fs : FS} {p q : String} (h : q ∈ fsAdd fs p) : q ∈ fs ∨ q = p := by
  unfold fsAdd at h
  cases hc : fs.contains p with
  | true =>
    rw [hc] at h
    simp only [if_true] at h
    exact Or.inl h
  | false =>
    rw [hc] at h
    simp only [Bool.false_eq_true, if_false] at h
    rcases List.mem_append.mp h with h | h
    · exact Or.inl h
    · simp only [List.mem_singleton] at h
      exact Or.inr h

theorem cleanup_tempXml_absent (fs : FS) (t d : String) (b : Bool) :
    t ∉ process_uploaded_task.cleanupFinally fs t d b := by
  unfold process_uploaded_task.cleanupFinally
  cases b with
  | false => exact not_mem_fsRemove_self fs t
  | true =>
    intro hmem
    exact not_mem_fsRemove_self fs t (mem_of_mem_fsRemove hmem)

theorem cleanup_dump_absent_set (fs : FS) (t d : String) :
    d ∉ process_uploaded_task.cleanupFinally fs t d true := by
  unfold process_uploaded_task.cleanupFinally
  exact not_mem_fsRemove_self _ d

theorem cleanup_dump_absent_unset (fs0 : FS) (t d : String) (hfs : d ∉ fs0) :
    d ∉ process_uploaded_task.cleanupFinally fs0 t d false := by
  unfold process_uploaded_task.cleanupFinally
  intro hmem
  exact hfs (mem_of_mem_fsRemove hmem)

theorem cleanup_dump_absent_unset_add (fs0 : FS) (t d : String) (hfs : d ∉ fs0) :
    d ∉ process_uploaded_task.cleanupFinally (fsAdd fs0 t) t d false := by
  unfold process_uploaded_task.cleanupFinally
  intro hmem
  rcases mem_fsAdd_elim (mem_of_mem_fsRemove hmem) with h | h
  · exact hfs h
  · exact (ne_of_mem_fsRemove hmem) h

/-- C7: after every orchestration run — success or any failure — the
temporary download file and the temporary dump file are absent from the
filesystem: the `finally` block runs on all exit paths and removes
whatever was assigned; the only hypothesis is that no unrelated stray
file already sat at this run's dump path beforehand (the dump path is
only cleaned once the dump step was reached). -/
theorem C7_temp_files_absent_after_every_run (env : process_uploaded_task.OrchEnv)
    (fs0 : FS) (st0 : Store) (bucket key : String) (user_id : Option String)
    (h : process_uploaded_task.dumpFilePath key ∉ fs0) :
    process_uploaded_task.tempXmlPath key ∉
      (process_uploaded_task.process_uploaded_xml_file env fs0 st0 bucket key user_id).2.1 ∧
    process_uploaded_task.dumpFilePath key ∉
      (process_uploaded_task.process_uploaded_xml_file env fs0 st0 bucket key user_id).2.1 := by
  obtain ⟨dErr, dLeaves, parsed, cErr, dStderr, dumpLeaves, uErr⟩ := env
  set t := process_uploaded_task.tempXmlPath key with ht
  set d := process_uploaded_task.dumpFilePath key with hd
  cases dErr with
  | some e =>
    cases dLeaves with
    | false =>
      exact ⟨cleanup_tempXml_absent fs0 t d false,
        cleanup_dump_absent_unset fs0 t d h⟩
    | true =>
      exact ⟨cleanup_tempXml_absent (fsAdd fs0 t) t d false,
        cleanup_dump_absent_unset_add fs0 t d h⟩
  | none =>
    cases cErr with
    | some e =>
      exact ⟨cleanup_tempXml_absent (fsAdd fs0 t) t d false,
        cleanup_dump_absent_unset_add fs0 t d h⟩
    | none =>
      cases dStderr with
      | some s =>
        cases dumpLeaves with
        | false =>
          exact ⟨cleanup_tempXml_absent (fsAdd fs0 t) t d true,
            cleanup_dump_absent_set (fsAdd fs0 t) t d⟩
        | true =>
          exact ⟨cleanup_tempXml_absent (fsAdd (fsAdd fs0 t) d) t d true,
            cleanup_dump_absent_set (fsAdd (fsAdd fs0 t) d) t d⟩
      | none =>
        cases uErr with
        | some e =>
          exact ⟨cleanup_tempXml_absent (fsAdd (fsAdd fs0 t) d) t d true,
            cleanup_dump_absent_set (fsAdd (fsAdd fs0 t) d) t d⟩
        | none =>
          exact ⟨cleanup_tempXml_absent (fsAdd (fsAdd fs0 t) d) t d true,
            cleanup_dump_absent_set (fsAdd (fsAdd fs0 t) d) t d⟩

def c7Env : process_uploaded_task.OrchEnv :=
  { downloadError := Option.none, downloadLeavesFile := false
    parsed := { chunks := [], streamError := Option.none }
    commitError := Option.none
    dumpStderr := some "connection refused"
    dumpLeavesFile := true
    uploadError := Option.none }

theorem C7_temp_files_absent_after_every_run_witness :
    (process_uploaded_task.dumpFilePath "u1/raw/export.xml" ∉ (["/data/other.txt"] : FS)) ∧
    (process_uploaded_task.tempXmlPath "u1/raw/export.xml" ∉
      (process_uploaded_task.process_uploaded_xml_file c7Env ["/data/other.txt"]
        { committed := [], pending := [] } "healthion" "u1/raw/export.xml" Option.none).2.1 ∧
     process_uploaded_task.dumpFilePath "u1/raw/export.xml" ∉
      (process_uploaded_task.process_uploaded_xml_file c7Env ["/data/other.txt"]
        { committed := [], pending := [] } "healthion" "u1/raw/export.xml" Option.none).2.1) :=
  ⟨by decide,
    C7_temp_files_absent_after_every_run c7Env ["/data/other.txt"]
      { committed := [], pending := [] } "healthion" "u1/raw/export.xml" Option.none (by decide)⟩

def c1GoodRow1 : Row := [("type", PyVal.str "HeartRate"), ("value", PyVal.str "72")]

def c1GoodRow2 : Row := [("type", PyVal.str "StepCount"), ("value", PyVal.str "4")]

def c1BadRow : Row := [("type", PyVal.str "HeartRate"), ("value", PyVal.str "not-a-number")]

def c1Chunks : List Chunk :=
  [{ cols := ["type", "value"], rows := [c1GoodRow1] },
   { cols := ["type", "value"], rows := [c1GoodRow2, c1BadRow] }]

def c1Env : process_uploaded_task.OrchEnv :=
  { downloadError := Option.none, downloadLeavesFile := false
    parsed := { chunks := c1Chunks, streamError := Option.none }
    commitError := Option.none, dumpStderr := Option.none
    dumpLeavesFile := false, uploadError := Option.none }

def c1Run : process_uploaded_task.TaskResult × FS × Store :=
  process_uploaded_task.process_uploaded_xml_file c1Env [] { committed := [], pending := [] }
    "healthion" "u1/raw/export.xml" Option.none

/-- C1: the claim says a row failure during Parse+Persist rolls the
per-file transaction back in full, leaves zero rows visible and yields a
`failed` TaskResult.  On the code this fails: `import_xml` catches the
row exception internally and returns a failure-message response, so the
task's `except/rollback` never fires, `db.commit()` runs, the rows built
before the failure (here both earlier chunks' rows) become visible, and
the result status is `success`.  The theorem evaluates the run at a file
whose last row raises during entity construction. -/
theorem C1_row_failure_commits_and_reports_success :
    XMLImportService.buildRecord "u1" c1BadRow = Except.error PyExc.invalidOperation ∧
    c1Run.1.status = "success" ∧
    c1Run.1.message = some "XML import failed: InvalidOperation" ∧
    c1Run.2.2.committed.length = 2 := by
  refine ⟨by decide, by decide, by decide, by decide⟩

def c4BadRow : Row := [("type", PyVal.str "T"), ("value", PyVal.str "oops")]

def c4Env : process_uploaded_task.OrchEnv :=
  { downloadError := Option.none, downloadLeavesFile := false
    parsed := { chunks := [{ cols := ["type", "value"], rows := [c4BadRow] }],
                streamError := Option.none }
    commitError := Option.none, dumpStderr := Option.none
    dumpLeavesFile := false, uploadError := Option.none }

def c4Run : process_uploaded_task.TaskResult × FS × Store :=
  process_uploaded_task.process_uploaded_xml_file c4Env [] { committed := [], pending := [] }
    "healthion" "u2/raw/data.xml" Option.none

/-- C4: the claim's "success iff Acquire, Parse+Persist, Dump and
Archive-Upload all complete" fails in one direction: when persistence
fails on a row, `import_xml` swallows the exception, so the run still
reports `success` (with the import-failure text only inside `message`
and no `error` field), even though nothing was imported. -/
theorem C4_persistence_failure_still_reports_success :
    XMLImportService.buildRecord "u2" c4BadRow = Except.error PyExc.invalidOperation ∧
    c4Run.1.status = "success" ∧
    c4Run.1.error = Option.none ∧
    c4Run.1.message = some "XML import failed: InvalidOperation" ∧
    c4Run.2.2.committed = [] := by
  refine ⟨by decide, by decide, by decide, by decide, by decide⟩

namespace tasks

/-- The pairs one record dispatches (one for an `aws:s3` record whose
processing succeeds, none otherwise). -/
def recordPair (r : Json) : List (Json × Json) :=
  match processRecord r with
  | Except.ok (some p) => [p]
  | _ => []

/-- `record.get('eventSource') == 'aws:s3'` for a record that is a dict
(non-dicts never pass the test — they raise instead). -/
def recordIsS3 (r : Json) : Bool :=
  match r with
  | Json.obj g =>
    match g.lookup "eventSource" with
    | some v => v.isStr "aws:s3"
    | Option.none => false
  | _ => false

/-- A record conforming to the inbound notification contract: a JSON
object, and when its event source is `aws:s3` the `s3.bucket.name` and
`s3.object.key` entries are present (so processing it cannot raise). -/
def wfRecord (r : Json) : Bool :=
  match r with
  | Json.obj fs =>
    match fs.lookup "eventSource" with
    | some v =>
      if v.isStr "aws:s3" then
        match fs.lookup "s3" with
        | some (Json.obj s3f) =>
          (match s3f.lookup "bucket" with
           | some (Json.obj bf) => (bf.lookup "name").isSome
           | _ => false) &&
          (match s3f.lookup "object" with
           | some (Json.obj objf) => (objf.lookup "key").isSome
           | _ => false)
        | _ => false
      else true
    | Option.none => true
  | _ => false

/-- A message body conforming to the inbound notification contract: a
JSON object whose `Records` entry, when present, is a list of
well-formed records. -/
def wfBody (b : Json) : Bool :=
  match b with
  | Json.obj fs =>
    match fs.lookup "Records" with
    | Option.none => true
    | some (Json.arr rs) => rs.all wfRecord
    | some _ => false
  | _ => false

def wfMessage (m : SqsMessage) : Bool :=
  match m.body with
  | Except.ok b => wfBody b
  | Except.error _ => false

/-- The pairs a whole message dispatches. -/
def messagePairs (m : SqsMessage) : List (Json × Json) :=
  match m.body with
  | Except.ok (Json.obj fs) =>
    match fs.lookup "Records" with
    | some (Json.arr rs) => rs.flatMap recordPair
    | _ => []
  | _ => []

/-- Whether the message carries at least one `Records` entry with the
expected `aws:s3` event source. -/
def hasS3Record (m : SqsMessage) : Bool :=
  match m.body with
  | Except.ok (Json.obj fs) =>
    match fs.lookup "Records" with
    | some (Json.arr rs) => rs.any recordIsS3
    | _ => false
  | _ => false

end tasks

theorem recordPair_eq (r : Json) (o : Option (Json × Json))
    (h : tasks.processRecord r = Except.ok o) :
    tasks.recordPair r = o.toList := by
  unfold tasks.recordPair
  rw [h]
  cases o <;> rfl

theorem recordPair_empty_of_not_s3 (r : Json) (hr : tasks.recordIsS3 r = false) :
    tasks.recordPair r = [] := by
  cases r with
  | obj g =>
    simp only [tasks.recordIsS3] at hr
    unfold tasks.recordPair tasks.processRecord
    cases hev : g.lookup "eventSource" with
    | none => simp [hev]
    | some v =>
      rw [hev] at hr
      simp only [] at hr
      simp [hev, hr]
  | null => rfl
  | bool b => rfl
  | num n => rfl
  | str s => rfl
  | arr xs => rfl

theorem processRecord_wf (r : Json) (h : tasks.wfRecord r = true) :
    ∃ o, tasks.processRecord r = Except.ok o := by
  cases r with
  | obj fs =>
    simp only [tasks.wfRecord] at h
    cases hev : fs.lookup "eventSource" with
    | none =>
      refine ⟨Option.none, ?_⟩
      unfold tasks.processRecord
      simp [hev]
    | some v =>
      rw [hev] at h
      simp only [] at h
      by_cases hs : v.isStr "aws:s3" = true
      · rw [if_pos hs] at h
        cases hs3 : fs.lookup "s3" with
        | none => rw [hs3] at h; simp at h
        | some s3v =>
          rw [hs3] at h
          cases s3v with
          | obj s3f =>
            simp only [Bool.and_eq_true] at h
            obtain ⟨hb, ho⟩ := h
            cases hbk : s3f.lookup "bucket" with
            | none => rw [hbk] at hb; simp at hb
            | some bv =>
              rw [hbk] at hb
              cases bv with
              | obj bf =>
                simp only [] at hb
                obtain ⟨nv, hnv⟩ := Option.isSome_iff_exists.mp hb
                cases hob : s3f.lookup "object" with
                | none => rw [hob] at ho; simp at ho
                | some ov =>
                  rw [hob] at ho
                  cases ov with
                  | obj objf =>
                    simp only [] at ho
                    obtain ⟨kv, hkv⟩ := Option.isSome_iff_exists.mp ho
                    refine ⟨some (nv, kv), ?_⟩
                    unfold tasks.processRecord
                    simp [hev, hs, jsonGet, hs3, hbk, hnv, hob, hkv,
                      Bind.bind, Except.bind]
                  | null => simp at ho
                  | bool b => simp at ho
                  | num n => simp at ho
                  | str s => simp at ho
                  | arr xs => simp at ho
              | null => simp at hb
              | bool b => simp at hb
              | num n => simp at hb
              | str s => simp at hb
              | arr xs => simp at hb
          | null => simp at h
          | bool b => simp at h
          | num n => simp at h
          | str s => simp at h
          | arr xs => simp at h
      · have hs' : v.isStr "aws:s3" = false := by
          cases hval : v.isStr "aws:s3"
          · rfl
          · exact absurd hval hs
        refine ⟨Option.none, ?_⟩
        unfold tasks.processRecord
        simp [hev, hs']
  | null => simp [tasks.wfRecord] at h
  | bool b => simp [tasks.wfRecord] at h
  | num n => simp [tasks.wfRecord] at h
  | str s => simp [tasks.wfRecord] at h
  | arr xs => simp [tasks.wfRecord] at h

theorem recordsLoop_wf (rs : List Json) (h : rs.all tasks.wfRecord = true) :
    ∀ st : tasks.PollState,
      tasks.recordsLoop st rs =
        ({ st with
            dispatched := st.dispatched ++ rs.flatMap tasks.recordPair,
            processedCount := st.processedCount + (rs.flatMap tasks.recordPair).length },
          Option.none) := by
  induction rs with
  | nil =>
    intro st
    simp [tasks.recordsLoop]
  | cons r rest ih =>
    intro st
    rw [List.all_cons, Bool.and_eq_true] at h
    obtain ⟨o, ho⟩ := processRecord_wf r h.1
    have hrp := recordPair_eq r o ho
    unfold tasks.recordsLoop
    rw [ho]
    cases o with
    | none =>
      rw [ih h.2 st]
      simp [List.flatMap_cons, hrp]
    | some p =>
      simp only []
      rw [ih h.2 { st with
        dispatched := st.dispatched ++ [p],
        processedCount := st.processedCount + 1 }]
      simp [List.flatMap_cons, hrp, List.append_assoc]
      omega

theorem lookup_isSome_iff_any (fs : List (String × Json)) (k : String) :
    (fs.lookup k).isSome = fs.any (fun f => k == f.1) := by
  induction fs with
  | nil => rfl
  | cons f rest ih =>
    rcases f with ⟨a, b⟩
    cases hk : (k == a) with
    | true => simp [List.lookup, hk]
    | false => simp [List.lookup, hk, ih]

theorem processMessage_wf (st : tasks.PollState) (m : tasks.SqsMessage)
    (h : tasks.wfMessage m = true) :
    tasks.processMessage st m =
      ({ dispatched := st.dispatched ++ tasks.messagePairs m,
         deleted := st.deleted ++ [m.receiptHandle],
         processedCount := st.processedCount + (tasks.messagePairs m).length },
        Option.none) := by
  rcases m with ⟨body, rh⟩
  cases body with
  | error e => simp [tasks.wfMessage] at h
  | ok b =>
    cases b with
    | obj fs =>
      simp only [tasks.wfMessage, tasks.wfBody] at h
      unfold tasks.processMessage tasks.messagePairs
      simp only []
      cases hrec : fs.lookup "Records" with
      | none =>
        have hk : jsonHasKey (Json.obj fs) "Records" = false := by
          unfold jsonHasKey
          simp only []
          rw [← lookup_isSome_iff_any, hrec]
          rfl
        rw [hk]
        simp [hrec]
      | some v =>
        rw [hrec] at h
        have hk : jsonHasKey (Json.obj fs) "Records" = true := by
          unfold jsonHasKey
          simp only []
          rw [← lookup_isSome_iff_any, hrec]
          rfl
        rw [hk]
        cases v with
        | arr rs =>
          simp only [] at h
          simp only [jsonGet, hrec]
          rw [recordsLoop_wf rs h st]
          simp
        | null => simp at h
        | bool bb => simp at h
        | num n => simp at h
        | str s => simp at h
        | obj g => simp at h
    | null => simp [tasks.wfMessage, tasks.wfBody] at h
    | bool bb => simp [tasks.wfMessage, tasks.wfBody] at h
    | num n => simp [tasks.wfMessage, tasks.wfBody] at h
    | str s => simp [tasks.wfMessage, tasks.wfBody] at h
    | arr xs => simp [tasks.wfMessage, tasks.wfBody] at h

theorem pollLoop_wf (msgs : List tasks.SqsMessage) (h : msgs.all tasks.wfMessage = true) :
    ∀ st : tasks.PollState,
      tasks.pollLoop st msgs =
        ({ dispatched := st.dispatched ++ msgs.flatMap tasks.messagePairs,
           deleted := st.deleted ++ msgs.map (fun m => m.receiptHandle),
           processedCount :=
             st.processedCount + (msgs.flatMap tasks.messagePairs).length },
          Option.none) := by
  induction msgs with
  | nil =>
    intro st
    simp [tasks.pollLoop]
  | cons m rest ih =>
    intro st
    rw [List.all_cons, Bool.and_eq_true] at h
    unfold tasks.pollLoop
    rw [processMessage_wf st m h.1]
    simp only []
    rw [ih h.2 _]
    simp [List.flatMap_cons, List.append_assoc]
    omega

theorem flatMap_recordPair_nil (rs : List Json) (h : rs.any tasks.recordIsS3 = false) :
    rs.flatMap tasks.recordPair = [] := by
  induction rs with
  | nil => rfl
  | cons r rest ih =>
    rw [List.any_cons] at h
    have h1 : tasks.recordIsS3 r = false := by
      cases hv : tasks.recordIsS3 r
      · rfl
      · rw [hv] at h; simp at h
    have h2 : rest.any tasks.recordIsS3 = false := by
      cases hv : rest.any tasks.recordIsS3
      · rfl
      · rw [hv] at h; simp at h
    rw [List.flatMap_cons, recordPair_empty_of_not_s3 r h1, ih h2]
    rfl

theorem messagePairs_empty_of_no_s3 (m : tasks.SqsMessage)
    (h : tasks.hasS3Record m = false) : tasks.messagePairs m = [] := by
  rcases m with ⟨body, rh⟩
  cases body with
  | error e => rfl
  | ok b =>
    cases b with
    | obj fs =>
      simp only [tasks.hasS3Record] at h
      unfold tasks.messagePairs
      simp only []
      cases hrec : fs.lookup "Records" with
      | none => simp [hrec]
      | some v =>
        rw [hrec] at h
        cases v with
        | arr rs =>
          simp only [] at h
          simp [hrec, flatMap_recordPair_nil rs h]
        | null => simp [hrec]
        | bool bb => simp [hrec]
        | num n => simp [hrec]
        | str s => simp [hrec]
        | obj g => simp [hrec]
    | null => rfl
    | bool bb => rfl
    | num n => rfl
    | str s => rfl
    | arr xs => rfl

/-- C8: in one poll over a batch of messages conforming to the inbound
notification contract, the poll raises nothing, every message is deleted
(deletion is decided at poll time, with no dependence on the outcome of
any dispatched task — the model of the poll takes no task outcome at
all), what is dispatched is exactly the `(bucket, key)` pairs of the
`aws:s3` records, and a message lacking a `Records` entry with the
expected event source dispatches nothing. -/
theorem C8_poll_deletes_and_dispatches (msgs : List tasks.SqsMessage)
    (m0 : tasks.SqsMessage) (h : msgs.all tasks.wfMessage = true)
    (hno : tasks.hasS3Record m0 = false) :
    (tasks.poll_sqs_messages msgs).2 = Option.none ∧
    (tasks.poll_sqs_messages msgs).1.deleted = msgs.map (fun m => m.receiptHandle) ∧
    (tasks.poll_sqs_messages msgs).1.dispatched = msgs.flatMap tasks.messagePairs ∧
    tasks.messagePairs m0 = [] := by
  have hp := pollLoop_wf msgs h tasks.emptyPollState
  unfold tasks.poll_sqs_messages
  rw [hp]
  exact ⟨rfl, by simp [tasks.emptyPollState], by simp [tasks.emptyPollState],
    messagePairs_empty_of_no_s3 m0 hno⟩

def c8Msg1 : tasks.SqsMessage :=
  { body := Except.ok (Json.obj [("Event", Json.str "s3:TestEvent")]),
    receiptHandle := "rh-1" }

def c8Record : Json :=
  Json.obj
    [("eventSource", Json.str "aws:s3"),
     ("s3", Json.obj
        [("bucket", Json.obj [("name", Json.str "healthion")]),
         ("object", Json.obj [("key", Json.str "u1/raw/export.xml")])])]

def c8Msg2 : tasks.SqsMessage :=
  { body := Except.ok (Json.obj [("Records", Json.arr [c8Record])]),
    receiptHandle := "rh-2" }

def c8Msgs : List tasks.SqsMessage := [c8Msg1, c8Msg2]

theorem C8_poll_deletes_and_dispatches_witness :
    c8Msgs.all tasks.wfMessage = true ∧
    tasks.hasS3Record c8Msg1 = false ∧
    ((tasks.poll_sqs_messages c8Msgs).2 = Option.none ∧
     (tasks.poll_sqs_messages c8Msgs).1.deleted = c8Msgs.map (fun m => m.receiptHandle) ∧
     (tasks.poll_sqs_messages c8Msgs).1.dispatched = c8Msgs.flatMap tasks.messagePairs ∧
     tasks.messagePairs c8Msg1 = []) :=
  ⟨by rfl, by rfl, C8_poll_deletes_and_dispatches c8Msgs c8Msg1 (by rfl) (by rfl)⟩
